import Mathlib

/-!
Verification development for the twsignals webhook service.

This file gives a shallow embedding, in Lean 4, of the core of the
twsignals repository (a TradingView-to-Telegram webhook forwarder):

* `app/models/webhook.py` — the `TradingViewWebhook` pydantic model with
  its field constraints and normalizing validators (`mkWebhook` below);
* `app/api/webhook.py` — the in-memory idempotency cache
  (`is_duplicate_message`) and the request handler control flow
  (`receive_tradingview_webhook`);
* `app/services/telegram.py` — the message formatter (`format_message`),
  the 30-per-second rate-limit gate (`check_rate_limit`) and the retry
  loop of `_send_message_with_retry` (`send_message_with_retry`);
* `app/core/security.py` — `verify_webhook_signature`.

Modelling conventions: Python floats are modelled as exact rationals
(the behaviour under scrutiny never depends on binary-float artifacts);
wall-clock instants and durations are rationals in seconds; `dict`
state is an association list; `asyncio.sleep t` is modelled as time
advancing by exactly `t`; exceptions become sum-type results.  String
helpers mirror the CPython semantics of `str.upper`, `str.strip`,
`str.capitalize` on the ASCII domain the service handles.
-/

/-- Python `str.upper` restricted to ASCII case mapping. -/
def pyUpper (s : String) : String :=
  String.mk (s.data.map Char.toUpper)

/-- Python `str.lower` restricted to ASCII case mapping. -/
def pyLower (s : String) : String :=
  String.mk (s.data.map Char.toLower)

/-- The whitespace characters removed by Python `str.strip` (ASCII range). -/
def isPySpace (c : Char) : Bool :=
  c == ' ' || c == '\t' || c == '\n' || c == '\r' || c == Char.ofNat 11 || c == Char.ofNat 12

/-- Python `str.strip` (no argument): drop whitespace at both ends. -/
def pyStrip (s : String) : String :=
  String.mk (((s.data.dropWhile isPySpace).reverse.dropWhile isPySpace).reverse)

/-- Python `str.capitalize`: first character uppercased, the rest lowercased. -/
def pyCapitalize (s : String) : String :=
  match s.data with
  | [] => ""
  | c :: cs => String.mk (c.toUpper :: cs.map Char.toLower)

/-- Python `str.startswith` for one pattern, on character lists. -/
def charsStart : List Char → List Char → Bool
  | [], _ => true
  | _ :: _, [] => false
  | p :: ps, c :: cs => p == c && charsStart ps cs

/-- `strStarts s pat` is Python `s.startswith(pat)`. -/
def strStarts (s pat : String) : Bool :=
  charsStart pat.data s.data

/-- Floor of a rational, written directly so that it evaluates by kernel
reduction (`q.den` is positive, so this is `⌊q⌋`). -/
def ratFloor (q : ℚ) : ℤ :=
  q.num.fdiv q.den

/-- Round-half-to-even on rationals, the rounding mode of Python `round`. -/
def rhe (q : ℚ) : ℤ :=
  let f := ratFloor q
  if q - f < 1/2 then f
  else if 1/2 < q - f then f + 1
  else if f % 2 = 0 then f else f + 1

/-- Python `round(v, 8)`: round to 8 decimal places, half to even
(`app/models/webhook.py`, `validate_price`). -/
def round8 (q : ℚ) : ℚ :=
  (rhe (q * 100000000) : ℚ) / 100000000

/-- Raw (pre-validation) webhook payload: the parsed JSON fields of the
`POST /webhook` body.  `price` is the exact rational value of the JSON
number; `interval`/`chart` are `none` when the key is absent. -/
structure RawWebhook where
  ticker : String
  signal : String
  price : ℚ
  time : String
  interval : Option String
  chart : Option String
  deriving DecidableEq, Repr

/-- Validated `TradingViewWebhook` model (`app/models/webhook.py`): the
canonical AlertPayload after field constraints and normalizers ran. -/
structure TradingViewWebhook where
  ticker : String
  signal : String
  price : ℚ
  time : String
  interval : Option String
  chart : Option String
  deriving DecidableEq, Repr

/-- Normalizer of the `ticker` validator: `v.upper().strip()`. -/
def validate_ticker (v : String) : String :=
  pyStrip (pyUpper v)

/-- Normalizer of the `signal` validator: `v.capitalize()`. -/
def validate_signal (v : String) : String :=
  pyCapitalize v

/-- The `chart` validator accepts an absent or empty value, and otherwise
requires an `http://` or `https://` scheme. -/
def chartOk : Option String → Bool
  | none => true
  | some v => v == "" || (strStarts v "http://" || strStarts v "https://")

/-- Pydantic validation of `TradingViewWebhook` (`app/models/webhook.py`).

Field constraints (checked on the raw values, before the `after`
validators run): `ticker` has `min_length=1, max_length=20`; `signal`
has `pattern="^(Buy|Sell)$"`; `price` has `gt=0`.  Then the `after`
validators normalize: ticker is uppercased and stripped, signal is
capitalized, price is re-checked positive and rounded to 8 decimals,
time is required non-empty and stripped, chart must be an http(s) URL
when present and non-empty.  Pydantic aggregates the per-field errors;
here validation is collapsed to `Option` (`none` = `ValidationError`). -/
def mkWebhook (r : RawWebhook) : Option TradingViewWebhook :=
  if r.ticker.length < 1 ∨ 20 < r.ticker.length then none
  else if ¬ (r.signal = "Buy" ∨ r.signal = "Sell") then none
  else if ¬ (0 < r.price) then none
  else if r.price ≤ 0 then none
  else if r.time = "" then none
  else if ¬ chartOk r.chart then none
  else some
    { ticker := validate_ticker r.ticker
      signal := validate_signal r.signal
      price := round8 r.price
      time := pyStrip r.time
      interval := r.interval
      chart := r.chart }

/-! ## Idempotency cache (`app/api/webhook.py`) -/

/-- The in-memory `_message_cache` dict, modelled as an association list
from cache key to last-seen wall-clock time in seconds. -/
abbrev Cache := List (String × ℚ)

/-- Dictionary lookup. -/
def cacheLookup (k : String) : Cache → Option ℚ
  | [] => none
  | (k', v) :: rest => if k' = k then some v else cacheLookup k rest

/-- `dict.pop(k, None)`: remove every binding of `k`. -/
def cacheErase (k : String) : Cache → Cache
  | [] => []
  | (k', v) :: rest => if k' = k then cacheErase k rest else (k', v) :: cacheErase k rest

/-- `dict[k] = v`: bind `k` to `v`, replacing any previous binding. -/
def cacheInsert (k : String) (v : ℚ) (c : Cache) : Cache :=
  (k, v) :: cacheErase k c

/-- The cache key `f"{ticker}:{signal}:{time}"` of `is_duplicate_message`. -/
def cacheKey (w : TradingViewWebhook) : String :=
  w.ticker ++ ":" ++ w.signal ++ ":" ++ w.time

/-- `is_duplicate_message` (`app/api/webhook.py`): the check-and-record
step of the idempotency cache, with the ambient `_message_cache`,
`time.time()` and `settings.cache_ttl` made explicit.  Returns the
reported duplicate flag and the cache after the call. -/
def is_duplicate_message (cache : Cache) (now ttl : ℚ) (w : TradingViewWebhook) :
    Bool × Cache :=
  let key := cacheKey w
  match cacheLookup key cache with
  | some ts =>
    if now - ts < ttl then (true, cache)
    else (false, cacheInsert key now (cacheErase key cache))
  | none => (false, cacheInsert key now cache)

/-! ## Message formatter (`app/services/telegram.py`, `_format_message`) -/

/-- Python truthiness of an optional string field (`if webhook_data.interval:`):
absent and empty both count as false. -/
def pyTruthy : Option String → Bool
  | none => false
  | some s => s != ""

/-- Decimal rendering of an integer number of `10^-8` units: integer part,
then the fractional digits with trailing zeros dropped (or `.0` when there
are none).  This is the f-string rendering of the 8-dp-rounded float. -/
def reprFixed8 (m : ℤ) : String :=
  let ip : ℕ := (m / 100000000).toNat
  let fp : ℕ := (m % 100000000).toNat
  if fp = 0 then Nat.repr ip ++ ".0"
  else
    let ds := Nat.repr fp
    let padded := String.mk (List.replicate (8 - ds.length) '0') ++ ds
    let trimmed := String.mk ((padded.data.reverse.dropWhile (fun c => c == '0')).reverse)
    Nat.repr ip ++ "." ++ trimmed

/-- The f-string rendering `f"{price}"` of a validated price (an exact
multiple of `10^-8` after `round8`): Python's shortest float `repr`,
which for these values is the decimal form without trailing zeros. -/
def priceRepr (q : ℚ) : String :=
  if q < 0 then "-" ++ reprFixed8 (ratFloor (-q * 100000000))
  else reprFixed8 (ratFloor (q * 100000000))

/-- `TelegramService._format_message`: newline-joined lines — bold ticker
(with the interval in parentheses when truthy), the Signal/Price line,
the 🕒 time line, and a chart anchor line when the chart is truthy. -/
def format_message (w : TradingViewWebhook) : String :=
  let tickerLine :=
    if pyTruthy w.interval then
      "<b>" ++ w.ticker ++ "</b>" ++ "  (" ++ w.interval.getD "" ++ ")"
    else "<b>" ++ w.ticker ++ "</b>"
  let base :=
    tickerLine ++ "\n" ++
    "Signal: <i>" ++ w.signal ++ "</i>  Price: " ++ priceRepr w.price ++ "\n" ++
    "🕒 " ++ w.time
  if pyTruthy w.chart then
    base ++ "\n" ++ "📈 <a href='" ++ w.chart.getD "" ++ "'>Chart</a>"
  else base

/-! ## Rate-limit gate (`app/services/telegram.py`, `_check_rate_limit`) -/

/-- The per-service rate-limit state: `_request_count` and
`_rate_limit_reset_time` (absent until the first call). -/
structure RLState where
  request_count : ℕ
  rate_limit_reset_time : Option ℚ
  deriving DecidableEq, Repr

/-- `TelegramService._check_rate_limit`, with `datetime.utcnow()` passed in
as `now` and `await asyncio.sleep t` modelled as time advancing by `t`.
Returns the slept duration (0 when the call proceeds at once) and the
state after the call.  Reset the window when `now` has passed the reset
time; when the count has reached 30 before the window resets, sleep until
the reset time, zero the counter and open a fresh window; finally count
this send. -/
def check_rate_limit (st : RLState) (now : ℚ) : ℚ × RLState :=
  let p : ℕ × ℚ :=
    match st.rate_limit_reset_time with
    | none => (0, now + 1)
    | some rt => if rt ≤ now then (0, now + 1) else (st.request_count, rt)
  let count := p.1
  let rt := p.2
  if 30 ≤ count then
    let sleepTime := rt - now
    if 0 < sleepTime then
      (sleepTime, ⟨0 + 1, some (now + sleepTime + 1)⟩)
    else (0, ⟨count + 1, some rt⟩)
  else (0, ⟨count + 1, some rt⟩)

/-- Run a sequence of sends through the rate-limit gate, collecting the
sleep durations of each call in order. -/
def rlRun (st : RLState) : List ℚ → List ℚ × RLState
  | [] => ([], st)
  | t :: ts =>
    let c := check_rate_limit st t
    let r := rlRun c.2 ts
    (c.1 :: r.1, r.2)

/-! ## Retry loop (`app/services/telegram.py`, `_send_message_with_retry`) -/

/-- What one delivery attempt observes from the transport, one constructor
per control path of the attempt body: HTTP 200 with `ok` true; HTTP 200
with `ok` false (remote API error); HTTP 429 with a `Retry-After` value;
any other HTTP status; `httpx.TimeoutException`; `httpx.RequestError`
(connection error); any other exception. -/
inductive Outcome
  | success
  | apiError
  | status429 (retryAfter : ℚ)
  | httpOther (code : ℕ)
  | timeout
  | requestError
  | otherExc
  deriving DecidableEq, Repr

/-- How `_send_message_with_retry` terminates: returns the parsed result,
raises `TelegramRateLimitError`, or raises plain `TelegramError`. -/
inductive SendResult
  | delivered
  | rateLimitError
  | telegramError
  deriving DecidableEq, Repr

/-- A sleep performed inside the retry loop: a backoff delay between
attempts, or the `Retry-After` sleep of the HTTP 429 branch. -/
inductive Sleep
  | backoff (d : ℚ)
  | retryAfter429 (d : ℚ)
  deriving DecidableEq, Repr

/-- Observable trace of one `_send_message_with_retry` call: the terminal
result, the sleeps in order, and how many attempts ran. -/
structure SendTrace where
  result : SendResult
  sleeps : List Sleep
  attemptsMade : ℕ
  deriving DecidableEq, Repr

/-- The body of the `for attempt in range(attempts)` loop of
`_send_message_with_retry`, from attempt index `i` with `fuel` loop
iterations left (`fuel = attempts - i` at every call from the loop head).
`transport i` is what attempt `i` observes.  Mirrors the source: success
and the two `TelegramError` raises (API error, other HTTP status) end the
loop at once; HTTP 429 sleeps `Retry-After` and `continue`s unless this
is the last attempt, in which case it raises `TelegramRateLimitError`;
timeout / connection error / unexpected exceptions raise on the last
attempt and otherwise fall through to the backoff sleep
`delay * backoff ^ attempt` before the next attempt; an exhausted loop
raises `TelegramError`. -/
def sendFrom (transport : ℕ → Outcome) (attempts : ℕ) (d b : ℚ) : ℕ → ℕ → SendTrace
  | _, 0 => ⟨.telegramError, [], 0⟩
  | i, fuel + 1 =>
    match transport i with
    | .success => ⟨.delivered, [], 1⟩
    | .apiError => ⟨.telegramError, [], 1⟩
    | .httpOther _ => ⟨.telegramError, [], 1⟩
    | .status429 ra =>
      if i < attempts - 1 then
        let r := sendFrom transport attempts d b (i + 1) fuel
        ⟨r.result, .retryAfter429 ra :: r.sleeps, r.attemptsMade + 1⟩
      else ⟨.rateLimitError, [], 1⟩
    | .timeout | .requestError | .otherExc =>
      if i = attempts - 1 then ⟨.telegramError, [], 1⟩
      else
        let r := sendFrom transport attempts d b (i + 1) fuel
        ⟨r.result, .backoff (d * b ^ i) :: r.sleeps, r.attemptsMade + 1⟩

/-- `TelegramService._send_message_with_retry` with the configuration
(`tg_retry_attempts`, `tg_retry_delay`, `tg_retry_backoff`) and the
transport behaviour made explicit. -/
def send_message_with_retry (transport : ℕ → Outcome) (attempts : ℕ) (d b : ℚ) :
    SendTrace :=
  sendFrom transport attempts d b 0 attempts

/-- An attempt outcome is a transient transport failure: a timeout or a
connection error. -/
def transient (o : Outcome) : Prop :=
  o = .timeout ∨ o = .requestError

/-! ## Signature verification (`app/core/security.py`) -/

/-- The three ways `verify_webhook_signature` raises `SignatureError`. -/
inductive SignatureError
  | missingSignature
  | secretNotConfigured
  | invalidSignature
  deriving DecidableEq, Repr

/-- `verify_webhook_signature(payload, signature)`, with the configured
secret and the HMAC-SHA256 hex digest function passed in explicitly
(the digest is computed by Python's `hmac`/`hashlib` libraries; only its
result enters the control flow).  Raised exceptions become `.error`. -/
def verify_webhook_signature (hmacHex : String → List ℕ → String)
    (secret : String) (payload : List ℕ) (signature : String) :
    Except SignatureError Bool :=
  if signature = "" then .error .missingSignature
  else if secret = "" then .error .secretNotConfigured
  else
    let expected := hmacHex secret payload
    if expected = signature then .ok true
    else .error .invalidSignature

/-! ## Request handler (`app/api/webhook.py`, `receive_tradingview_webhook`) -/

/-- An inbound `POST /webhook` request as the handler consumes it:
the parsed JSON body (`none` when the body is not valid JSON) and the
`X-Signature` header value (`""` when absent, matching
`request.headers.get("X-Signature", "")`). -/
structure WebhookRequest where
  body : Option RawWebhook
  xSignature : String

/-- The handler's observable response: HTTP status code and the
status/message fields of the body. -/
structure HandlerResponse where
  statusCode : ℕ
  status : String
  message : String
  deriving DecidableEq, Repr

/-- `receive_tradingview_webhook`: read the signature header (it is only
logged — signature validation is disabled), 400 on a JSON parse failure,
422 on a validation failure, otherwise schedule background processing and
answer 202 accepted. -/
def receive_tradingview_webhook (req : WebhookRequest) : HandlerResponse :=
  match req.body with
  | none => ⟨400, "error", "Invalid JSON payload"⟩
  | some raw =>
    match mkWebhook raw with
    | none => ⟨422, "error", "Invalid webhook data"⟩
    | some _ => ⟨202, "accepted", "Webhook received and processing"⟩

/-! ## Concrete payloads and transports used to instantiate the theorems -/

/-- A validated payload: the documented example alert. -/
def wEx : TradingViewWebhook :=
  ⟨"BTCUSDT", "Buy", 1, "2025-01-15T10:30:00Z", some "1h", none⟩

/-- The §8 example payload after field normalization: ticker `"btcusdt"`
uppercased, signal capitalized to `"Buy"`, price `45000.123456789`
rounded to 8 decimals, interval `"1h"`, no chart. -/
def exPayload : TradingViewWebhook :=
  ⟨validate_ticker "btcusdt", validate_signal "buy", round8 45000.123456789,
    pyStrip "2025-01-15T10:30:00Z", some "1h", none⟩

/-- A raw payload whose ticker is a single space and whose price is
`10^-9`: every field constraint holds on the raw values. -/
def rawBlank : RawWebhook :=
  ⟨" ", "Buy", 1/1000000000, "2025-01-15T10:30:00Z", none, none⟩

/-- A raw payload that validates without surprises. -/
def rawOk : RawWebhook :=
  ⟨"BTCUSDT", "Buy", 1, "2025-01-15T10:30:00Z", none, none⟩

/-- The validated form of `rawOk`. -/
def wOk : TradingViewWebhook :=
  ⟨validate_ticker "BTCUSDT", validate_signal "Buy", round8 1,
    pyStrip "2025-01-15T10:30:00Z", none, none⟩

/-- A transport that answers HTTP 500 on every attempt. -/
def transport500 : ℕ → Outcome := fun _ => .httpOther 500

/-- A transport that times out on attempts 0 and 1 and succeeds on 2. -/
def transportFlaky : ℕ → Outcome := fun i => if i < 2 then .timeout else .success

/-- A transport whose connection fails on every attempt. -/
def transportDown : ℕ → Outcome := fun _ => .requestError

/-- A validated payload with no interval and no chart. -/
def wPlain : TradingViewWebhook :=
  ⟨"ETHUSDT", "Sell", 1, "2025-01-15T11:00:00Z", none, none⟩

/-- A validated payload with both interval and chart present. -/
def wFull : TradingViewWebhook :=
  ⟨"ETHUSDT", "Sell", 1, "2025-01-15T11:00:00Z", some "4h", some "https://example.com/c"⟩
/-! ## Helper lemmas -/

/-- Looking up a just-inserted key returns the inserted timestamp. -/
theorem cacheLookup_insert (k : String) (v : ℚ) (c : Cache) :
    cacheLookup k (cacheInsert k v c) = some v := by
  simp [cacheInsert, cacheLookup]

/-- Claim C9: the response of `POST /webhook` does not depend on the
`X-Signature` header.  Two requests identical except for the presence or
value of `X-Signature` take the same validation path and get the same
status code and body fields; the handler reads the header only to log it
and never invokes the signature verifier. -/
theorem webhook_response_ignores_signature
    (body : Option RawWebhook) (s1 s2 : String) :
    receive_tradingview_webhook ⟨body, s1⟩ = receive_tradingview_webhook ⟨body, s2⟩ := rfl

/-- Claim C10: `verify_webhook_signature` never returns `False`.  For
every digest function, secret, payload and signature it either returns
`True` — exactly when the signature is present, the secret is configured
and the digest matches — or raises `SignatureError`; the `.ok false`
outcome suggested by its `-> bool` annotation is unreachable. -/
theorem verify_signature_never_false (hmacHex : String → List ℕ → String)
    (secret : String) (payload : List ℕ) (signature : String) :
    verify_webhook_signature hmacHex secret payload signature ≠ Except.ok false
    ∧ (verify_webhook_signature hmacHex secret payload signature = Except.ok true ↔
        signature ≠ "" ∧ secret ≠ "" ∧ hmacHex secret payload = signature) := by
  unfold verify_webhook_signature
  split_ifs with h1 h2 <;> simp_all
  all_goals split_ifs with h3 <;> simp_all

/-- Claim C3 (code bug): the claim says every signal case-insensitively
equal to "buy"/"sell" validates and is stored capitalized, and the repo's
own test feeds `"buy"` expecting `"Buy"` — but the field's
`pattern="^(Buy|Sell)$"` constraint runs before the `capitalize`
normalizer, so lowercase `"buy"` is rejected.  This theorem evaluates the
model at the failing input: validation returns `none` although the
normalizer itself would produce `"Buy"`. -/
theorem signal_pattern_blocks_lowercase_buy :
    mkWebhook ⟨"BTCUSDT", "buy", 45000, "2025-01-15T10:30:00Z", none, none⟩ = none
    ∧ validate_signal "buy" = "Buy" := by
  constructor
  · decide
  · decide

/-- Claim C8: when the idempotency check reports a duplicate (an entry
for the payload's (ticker, signal, time) key exists with age strictly
below the TTL), the cache is left entirely unchanged: the entry is not
re-stamped and nothing is added or removed. -/
theorem duplicate_hit_leaves_cache_unchanged
    (cache : Cache) (ttl now ts : ℚ) (w : TradingViewWebhook)
    (hl : cacheLookup (cacheKey w) cache = some ts) (hfresh : now - ts < ttl) :
    is_duplicate_message cache now ttl w = (true, cache) := by
  simp [is_duplicate_message, hl, hfresh]

theorem duplicate_hit_leaves_cache_unchanged_witness :
    is_duplicate_message [(cacheKey wEx, 0)] 0 1 wEx = (true, [(cacheKey wEx, 0)]) :=
  duplicate_hit_leaves_cache_unchanged [(cacheKey wEx, 0)] 1 0 0 wEx
    (by simp [cacheLookup]) (by simp)

/-- Claim C5 counterexample: with 3 configured attempts and the transport
answering HTTP 500, the very first attempt — not the last — already
raises: the call makes exactly 1 attempt and performs no backoff sleep,
contradicting the claim that earlier attempts continue the retry loop. -/
theorem http_500_first_attempt_aborts_retry :
    send_message_with_retry transport500 3 1 2 =
      ⟨SendResult.telegramError, [], 1⟩ := by
  norm_num [send_message_with_retry, sendFrom, transport500]

/-- Claim C5 (amended): on a non-2xx response other than 429 the client
raises immediately, with no further attempts and no backoff sleep, on
every attempt — not only the last.  (The `raise TelegramError` of the
HTTP-error branch is re-raised by the `except TelegramError` clause
regardless of the attempt index.) -/
theorem remote_rejection_aborts_on_every_attempt
    (transport : ℕ → Outcome) (attempts : ℕ) (d b : ℚ) (c i fuel : ℕ)
    (hi : transport i = .httpOther c) (h0 : transport 0 = .httpOther c)
    (h1 : 1 ≤ attempts) :
    sendFrom transport attempts d b i (fuel + 1) = ⟨.telegramError, [], 1⟩
    ∧ send_message_with_retry transport attempts d b = ⟨.telegramError, [], 1⟩ := by
  constructor
  · simp [sendFrom, hi]
  · cases attempts with
    | zero => omega
    | succ n => simp [send_message_with_retry, sendFrom, h0]

theorem remote_rejection_aborts_on_every_attempt_witness :
    sendFrom transport500 3 1 2 1 1 = ⟨.telegramError, [], 1⟩
    ∧ send_message_with_retry transport500 3 1 2 = ⟨.telegramError, [], 1⟩ :=
  remote_rejection_aborts_on_every_attempt transport500 3 1 2 500 1 0 rfl rfl (by decide)

/-- A miss or a stale entry: the check reports non-duplicate and stamps
the key with the current time. -/
theorem is_duplicate_message_miss
    (cache : Cache) (ttl now : ℚ) (w : TradingViewWebhook)
    (hfresh : ∀ ts, cacheLookup (cacheKey w) cache = some ts → ttl ≤ now - ts) :
    (is_duplicate_message cache now ttl w).1 = false
    ∧ cacheLookup (cacheKey w) (is_duplicate_message cache now ttl w).2 = some now := by
  simp only [is_duplicate_message]
  cases hc : cacheLookup (cacheKey w) cache with
  | none => simp only [hc]; simp [cacheLookup_insert]
  | some ts =>
    have hstale : ¬ (now - ts < ttl) := not_lt.mpr (hfresh ts hc)
    simp only [hc]
    simp [hstale, cacheLookup_insert]

/-- Claim C1: the check-and-record operation is keyed on the
(ticker, signal, time) triple regardless of price/interval/chart; for a
payload whose triple is unrecorded or stale it returns false and records
the key with the current timestamp; a second call with an identical
triple within the TTL window returns true; after the TTL elapses a third
call returns false again. -/
theorem idempotency_check_and_record_cycle
    (cache : Cache) (ttl now now2 now3 : ℚ) (w w' : TradingViewWebhook)
    (hfresh : ∀ ts, cacheLookup (cacheKey w) cache = some ts → ttl ≤ now - ts)
    (ht : w'.ticker = w.ticker) (hs : w'.signal = w.signal) (htm : w'.time = w.time)
    (h2 : now2 - now < ttl) (h3 : ttl ≤ now3 - now) :
    cacheKey w' = cacheKey w
    ∧ (is_duplicate_message cache now ttl w).1 = false
    ∧ cacheLookup (cacheKey w) (is_duplicate_message cache now ttl w).2 = some now
    ∧ (is_duplicate_message (is_duplicate_message cache now ttl w).2 now2 ttl w').1 = true
    ∧ (is_duplicate_message
        (is_duplicate_message (is_duplicate_message cache now ttl w).2 now2 ttl w').2
        now3 ttl w').1 = false := by
  have hkey : cacheKey w' = cacheKey w := by
    unfold cacheKey
    rw [ht, hs, htm]
  have hfirst := is_duplicate_message_miss cache ttl now w hfresh
  set c1 := (is_duplicate_message cache now ttl w).2 with hc1
  have hl1 : cacheLookup (cacheKey w') c1 = some now := by
    rw [hkey]; exact hfirst.2
  have hsec : is_duplicate_message c1 now2 ttl w' = (true, c1) := by
    simp only [is_duplicate_message]
    simp only [hl1]
    simp [h2]
  refine ⟨hkey, hfirst.1, hfirst.2, by rw [hsec], ?_⟩
  rw [hsec]
  have hstale : ∀ ts, cacheLookup (cacheKey w') c1 = some ts → ttl ≤ now3 - ts := by
    intro ts hts
    rw [hl1] at hts
    injection hts with hts
    rw [← hts]
    exact h3
  exact (is_duplicate_message_miss c1 ttl now3 w' hstale).1

theorem idempotency_check_and_record_cycle_witness :
    cacheKey wEx = cacheKey wEx
    ∧ (is_duplicate_message [] 0 1 wEx).1 = false
    ∧ cacheLookup (cacheKey wEx) (is_duplicate_message [] 0 1 wEx).2 = some 0
    ∧ (is_duplicate_message (is_duplicate_message [] 0 1 wEx).2 0 1 wEx).1 = true
    ∧ (is_duplicate_message
        (is_duplicate_message (is_duplicate_message [] 0 1 wEx).2 0 1 wEx).2
        1 1 wEx).1 = false :=
  idempotency_check_and_record_cycle [] 1 0 0 1 wEx wEx
    (by simp [cacheLookup]) rfl rfl rfl (by simp) (by simp)

/-- Rounding a nonnegative rational to 8 decimals stays nonnegative. -/
theorem round8_nonneg (q : ℚ) (hq : 0 ≤ q) : 0 ≤ round8 q := by
  have h8 : (0:ℚ) ≤ q * 100000000 := by positivity
  have hf : 0 ≤ ratFloor (q * 100000000) := by
    unfold ratFloor
    exact Int.fdiv_nonneg (Rat.num_nonneg.mpr h8) (by positivity)
  have hr : 0 ≤ rhe (q * 100000000) := by
    simp only [rhe]
    split_ifs <;> omega
  unfold round8
  exact div_nonneg (by exact_mod_cast hr) (by norm_num)

/-- Claim C2 counterexample: the payload with ticker `" "` (one space)
and price `10^-9` passes every check — `min_length=1` and `gt=0` are
enforced on the raw values — yet the stored payload has ticker `""`
(stripped to empty) and price `0` (rounded to zero), refuting both the
non-empty-ticker and the positive-price parts of the claim. -/
theorem validator_accepts_blank_ticker_and_zero_price :
    mkWebhook rawBlank = some ⟨"", "Buy", 0, "2025-01-15T10:30:00Z", none, none⟩ := by
  have hp : round8 (1/1000000000 : ℚ) = 0 := by
    norm_num [round8, rhe, ratFloor, Int.fdiv]
  norm_num [mkWebhook, rawBlank, hp]
  decide

/-- Claim C2 (amended): every accepted payload has signal in
{Buy, Sell}; its raw price is strictly positive and the stored price is
that value rounded to 8 decimals, hence nonnegative (but possibly 0);
its raw ticker has 1–20 characters (but the stored, trimmed-uppercased
ticker may be empty). -/
theorem accepted_payload_invariants
    (r : RawWebhook) (w : TradingViewWebhook) (h : mkWebhook r = some w) :
    (w.signal = "Buy" ∨ w.signal = "Sell")
    ∧ 0 < r.price ∧ w.price = round8 r.price ∧ 0 ≤ w.price
    ∧ 1 ≤ r.ticker.length ∧ r.ticker.length ≤ 20 := by
  unfold mkWebhook at h
  split_ifs at h with h1 h2 h3 h4 h5 h6
  injection h with h
  subst h
  have hlen : 1 ≤ r.ticker.length ∧ r.ticker.length ≤ 20 := by
    push_neg at h1
    omega
  have hsig : validate_signal r.signal = "Buy" ∨ validate_signal r.signal = "Sell" := by
    rcases h2 with hb | hs
    · left; rw [hb]; decide
    · right; rw [hs]; decide
  have hpos : 0 < r.price := h3
  exact ⟨hsig, hpos, rfl, round8_nonneg r.price (le_of_lt hpos), hlen.1, hlen.2⟩

theorem accepted_payload_invariants_witness :
    (wOk.signal = "Buy" ∨ wOk.signal = "Sell")
    ∧ 0 < rawOk.price ∧ wOk.price = round8 rawOk.price ∧ 0 ≤ wOk.price
    ∧ 1 ≤ rawOk.ticker.length ∧ rawOk.ticker.length ≤ 20 :=
  accepted_payload_invariants rawOk wOk rfl

/-- The loop never performs more attempts than it has iterations left. -/
theorem sendFrom_attemptsMade_le (t : ℕ → Outcome) (attempts : ℕ) (d b : ℚ) :
    ∀ fuel i, (sendFrom t attempts d b i fuel).attemptsMade ≤ fuel := by
  intro fuel
  induction fuel with
  | zero => intro i; simp [sendFrom]
  | succ n ih =>
    intro i
    simp only [sendFrom]
    cases t i <;> simp <;> split_ifs <;> simp <;> exact ih (i + 1)

/-- Claim C4: with 3 configured attempts, a transport failing
transiently (timeout or connection error) on attempts 1 and 2 and
succeeding on attempt 3 yields success after exactly 2 backoff sleeps of
`base_delay * backoff_multiplier ^ attempt_index`; with all 3 attempts
failing transiently the call raises `TelegramError` after exactly 3
attempts; and no configuration ever performs more attempts than
configured. -/
theorem retry_transient_then_success
    (d b : ℚ) (t t' : ℕ → Outcome)
    (h0 : transient (t 0)) (h1 : transient (t 1)) (h2 : t 2 = .success)
    (h0' : transient (t' 0)) (h1' : transient (t' 1)) (h2' : transient (t' 2)) :
    send_message_with_retry t 3 d b =
      ⟨.delivered, [.backoff (d * b ^ 0), .backoff (d * b ^ 1)], 3⟩
    ∧ send_message_with_retry t' 3 d b =
      ⟨.telegramError, [.backoff (d * b ^ 0), .backoff (d * b ^ 1)], 3⟩
    ∧ ∀ (u : ℕ → Outcome) (n : ℕ), (send_message_with_retry u n d b).attemptsMade ≤ n := by
  refine ⟨?_, ?_, ?_⟩
  · rcases h0 with h0 | h0 <;> rcases h1 with h1 | h1 <;>
      simp [send_message_with_retry, sendFrom, h0, h1, h2]
  · rcases h0' with h0' | h0' <;> rcases h1' with h1' | h1' <;> rcases h2' with h2' | h2' <;>
      simp [send_message_with_retry, sendFrom, h0', h1', h2']
  · intro u n
    exact sendFrom_attemptsMade_le u n d b n 0

theorem retry_transient_then_success_witness :
    send_message_with_retry transportFlaky 3 1 2 =
      ⟨.delivered, [.backoff (1 * 2 ^ 0), .backoff (1 * 2 ^ 1)], 3⟩
    ∧ send_message_with_retry transportDown 3 1 2 =
      ⟨.telegramError, [.backoff (1 * 2 ^ 0), .backoff (1 * 2 ^ 1)], 3⟩
    ∧ ∀ (u : ℕ → Outcome) (n : ℕ), (send_message_with_retry u n 1 2).attemptsMade ≤ n :=
  retry_transient_then_success 1 2 transportFlaky transportDown
    (Or.inl rfl) (Or.inl rfl) rfl (Or.inr rfl) (Or.inr rfl) (Or.inr rfl)

/-- Running the gate over a concatenation splits into the two runs. -/
theorem rlRun_append (st : RLState) (xs ys : List ℚ) :
    rlRun st (xs ++ ys) =
      ((rlRun st xs).1 ++ (rlRun (rlRun st xs).2 ys).1, (rlRun (rlRun st xs).2 ys).2) := by
  induction xs generalizing st with
  | nil => simp [rlRun]
  | cons x xs ih => simp [rlRun, ih]

/-- Below the cap and inside the window, every call proceeds without
sleeping and only counts up. -/
theorem rlRun_under_cap (rt : ℚ) (ts : List ℚ) :
    ∀ k : ℕ, k + ts.length ≤ 30 → (∀ t ∈ ts, t < rt) →
    rlRun ⟨k, some rt⟩ ts = (List.replicate ts.length 0, ⟨k + ts.length, some rt⟩) := by
  induction ts with
  | nil => intro k _ _; simp [rlRun]
  | cons t ts ih =>
    intro k hk hmem
    have hnoreset : ¬ (rt ≤ t) := not_le.mpr (hmem t (by simp))
    have hcap : ¬ (30 ≤ k) := by
      simp only [List.length_cons] at hk
      omega
    have hstep : check_rate_limit ⟨k, some rt⟩ t = (0, ⟨k + 1, some rt⟩) := by
      simp [check_rate_limit, hnoreset, hcap]
    have hrest := ih (k + 1) (by simp only [List.length_cons] at hk; omega)
      (fun x hx => hmem x (by simp [hx]))
    simp [rlRun, hstep, hrest]
    constructor
    · rfl
    · omega

/-- Claim C6: of 31 sends falling inside the same 1-second window, the
first 30 proceed with no rate-limit wait and the 31st suspends for the
remainder of the window — waking exactly at the window reset time, so
no 31st send proceeds within one window — after which the counter
restarts at 1 (reset, then incremented for the woken call). -/
theorem rate_limit_31st_call_suspends
    (t1 t31 : ℚ) (ts : List ℚ)
    (hlen : ts.length = 29)
    (hts : ∀ t ∈ ts, t < t1 + 1)
    (h31 : t31 < t1 + 1) :
    (rlRun ⟨0, none⟩ (t1 :: (ts ++ [t31]))).1 = List.replicate 30 0 ++ [t1 + 1 - t31]
    ∧ 0 < t1 + 1 - t31
    ∧ t31 + (t1 + 1 - t31) = t1 + 1
    ∧ (rlRun ⟨0, none⟩ (t1 :: (ts ++ [t31]))).2 = ⟨1, some (t31 + (t1 + 1 - t31) + 1)⟩ := by
  have hstep1 : check_rate_limit ⟨0, none⟩ t1 = (0, ⟨1, some (t1 + 1)⟩) := by
    simp [check_rate_limit]
  have hts' := rlRun_under_cap (t1 + 1) ts 1 (by omega) hts
  rw [hlen] at hts'
  have hpos : (0:ℚ) < t1 + 1 - t31 := by linarith
  have hlast : check_rate_limit ⟨30, some (t1 + 1)⟩ t31 = (t1 + 1 - t31, ⟨1, some (t31 + (t1 + 1 - t31) + 1)⟩) := by
    have hnoreset : ¬ (t1 + 1 ≤ t31) := not_le.mpr h31
    simp [check_rate_limit, hnoreset, hpos]
  have hbody : rlRun ⟨1, some (t1 + 1)⟩ (ts ++ [t31]) =
      (List.replicate 29 0 ++ [t1 + 1 - t31], ⟨1, some (t31 + (t1 + 1 - t31) + 1)⟩) := by
    rw [rlRun_append, hts']
    simp [rlRun, hlast]
  refine ⟨?_, hpos, by ring, ?_⟩
  · simp only [rlRun, hstep1, hbody]
    rfl
  · simp only [rlRun, hstep1, hbody]

theorem rate_limit_31st_call_suspends_witness :
    (rlRun ⟨0, none⟩ ((0:ℚ) :: (List.replicate 29 (0:ℚ) ++ [0]))).1
      = List.replicate 30 0 ++ [0 + 1 - 0]
    ∧ (0:ℚ) < 0 + 1 - 0
    ∧ (0:ℚ) + (0 + 1 - 0) = 0 + 1
    ∧ (rlRun ⟨0, none⟩ ((0:ℚ) :: (List.replicate 29 (0:ℚ) ++ [0]))).2
      = ⟨1, some (0 + (0 + 1 - 0) + 1)⟩ :=
  rate_limit_31st_call_suspends 0 0 (List.replicate 29 0)
    (by simp) (by simp) (by simp)

/-- Claim C7: the formatter is a pure function of the payload producing
newline-joined lines — bold ticker with the interval appended in
parentheses only when present, a Signal/Price line with italic signal,
a 🕒 time line, and a chart-link line only when present.  The §8 example
payload (ticker "btcusdt", signal "buy", price 45000.123456789,
interval "1h"), fieldwise-normalized, yields exactly
`"<b>BTCUSDT</b>  (1h)\nSignal: <i>Buy</i>  Price: 45000.12345679\n🕒 2025-01-15T10:30:00Z"`. -/
theorem format_message_layout :
    format_message exPayload =
      "<b>BTCUSDT</b>  (1h)\nSignal: <i>Buy</i>  Price: 45000.12345679\n🕒 2025-01-15T10:30:00Z"
    ∧ (∀ w : TradingViewWebhook, w.interval = none → w.chart = none →
        format_message w =
          "<b>" ++ w.ticker ++ "</b>" ++ "\n" ++
          "Signal: <i>" ++ w.signal ++ "</i>  Price: " ++ priceRepr w.price ++ "\n" ++
          "🕒 " ++ w.time)
    ∧ (∀ (w : TradingViewWebhook) (iv ch : String),
        w.interval = some iv → iv ≠ "" → w.chart = some ch → ch ≠ "" →
        format_message w =
          "<b>" ++ w.ticker ++ "</b>" ++ "  (" ++ iv ++ ")" ++ "\n" ++
          "Signal: <i>" ++ w.signal ++ "</i>  Price: " ++ priceRepr w.price ++ "\n" ++
          "🕒 " ++ w.time ++ "\n" ++
          "📈 <a href='" ++ ch ++ "'>Chart</a>") := by
  refine ⟨?_, ?_, ?_⟩
  · have hp : priceRepr (round8 (45000.123456789 : ℚ)) = "45000.12345679" := by
      have h0 : ¬ (round8 (45000.123456789 : ℚ) < 0) := by
        norm_num [round8, rhe, ratFloor, Int.fdiv]
      have hm : ratFloor (round8 (45000.123456789 : ℚ) * 100000000) = 4500012345679 := by
        norm_num [round8, rhe, ratFloor, Int.fdiv]
      rw [priceRepr, if_neg h0, hm]
      decide
    simp only [format_message, exPayload, pyTruthy]
    rw [hp]
    decide
  · intro w h1 h2
    simp only [format_message, pyTruthy, h1, h2]
    rfl
  · intro w iv ch h1 hiv h2 hch
    simp only [format_message, pyTruthy, h1, h2, Option.getD_some]
    rw [if_pos (by simp [hch]), if_pos (by simp [hiv])]

theorem format_message_layout_witness :
    format_message wPlain =
      "<b>" ++ wPlain.ticker ++ "</b>" ++ "\n" ++
      "Signal: <i>" ++ wPlain.signal ++ "</i>  Price: " ++ priceRepr wPlain.price ++ "\n" ++
      "🕒 " ++ wPlain.time
    ∧ format_message wFull =
      "<b>" ++ wFull.ticker ++ "</b>" ++ "  (" ++ "4h" ++ ")" ++ "\n" ++
      "Signal: <i>" ++ wFull.signal ++ "</i>  Price: " ++ priceRepr wFull.price ++ "\n" ++
      "🕒 " ++ wFull.time ++ "\n" ++
      "📈 <a href='" ++ "https://example.com/c" ++ "'>Chart</a>" :=
  ⟨format_message_layout.2.1 wPlain rfl rfl,
   format_message_layout.2.2 wFull "4h" "https://example.com/c" rfl (by decide) rfl (by decide)⟩
